import Mathlib

/-!
Verification of the IOTstack service-template builder sources: the mosquitto
ServiceBuilder lifecycle (compile / issues / build) and the catalog templates
(prometheus, influxdb, espruinohub). JavaScript objects are embedded as ordered
key-value lists so that statements about an object's field names are statable.
-/

/-- JavaScript runtime values as far as the builder observes them: primitives,
functions, arrays, and plain objects given as ordered key-value lists.
`undef` (undefined) and `fn` (a function value) are the values that
JSON.stringify cannot serialize and drops from objects. -/
inductive JsVal where
  | str : String → JsVal
  | num : Int → JsVal
  | bool : Bool → JsVal
  | null : JsVal
  | undef : JsVal
  | fn : JsVal
  | arr : List JsVal → JsVal
  | obj : List (String × JsVal) → JsVal

mutual

/-- One value of JSON.parse(JSON.stringify(v, keys)) where `keys` is a replacer
array: undefined and function values serialize to nothing, arrays keep every
element (unserializable elements become null), and objects keep, in order,
exactly the properties whose key is in `keys` and whose value serializes. -/
def serializeVal (keys : List String) : JsVal → Option JsVal
  | .str s => some (.str s)
  | .num n => some (.num n)
  | .bool b => some (.bool b)
  | .null => some .null
  | .undef => none
  | .fn => none
  | .arr xs => some (.arr (serializeArr keys xs))
  | .obj props => some (.obj (serializeProps keys props))

/-- Array elements under JSON round-trip with replacer array `keys`. -/
def serializeArr (keys : List String) : List JsVal → List JsVal
  | [] => []
  | x :: xs => (serializeVal keys x).getD .null :: serializeArr keys xs

/-- Object properties under JSON round-trip with replacer array `keys`. -/
def serializeProps (keys : List String) : List (String × JsVal) → List (String × JsVal)
  | [] => []
  | (k, v) :: rest =>
      if k ∈ keys then
        match serializeVal keys v with
        | some w => (k, w) :: serializeProps keys rest
        | none => serializeProps keys rest
      else serializeProps keys rest

end

mutual

/-- True when a value holds no undefined and no function anywhere: it is a
plain serializable snapshot. -/
def noBadVal : JsVal → Bool
  | .undef => false
  | .fn => false
  | .arr xs => noBadArr xs
  | .obj props => noBadProps props
  | _ => true

/-- noBadVal over every element of an array. -/
def noBadArr : List JsVal → Bool
  | [] => true
  | x :: xs => noBadVal x && noBadArr xs

/-- noBadVal over every property value of an object. -/
def noBadProps : List (String × JsVal) → Bool
  | [] => true
  | p :: ps => noBadVal p.2 && noBadProps ps

end

/-- An exception value as the catch blocks see it: its own properties (what
Object.getOwnPropertyNames reaches) and the properties reachable only through
the prototype chain. -/
structure JsError where
  ownProps : List (String × JsVal)
  protoProps : List (String × JsVal)

/-- Object.getOwnPropertyNames of the thrown value. -/
def ownPropertyNames (e : JsError) : List String := e.ownProps.map Prod.fst

/-- JSON.parse(JSON.stringify(err, Object.getOwnPropertyNames(err))) as built
in the three catch blocks: a plain object holding only the error's own
properties, filtered at every level by the own-name replacer list, with
non-serializable values dropped. -/
def errorSnapshot (e : JsError) : JsVal :=
  .obj (serializeProps (ownPropertyNames e) e.ownProps)

/-- Modelled from the spec: the compile-merge helpers (setModifiedPorts,
setLoggingState, setNetworkMode, setNetworks of commonCompileLogic) are
required from ../../../src/utils and are not among the sources; the spec
describes what a service's block in the Working Document holds. Ports map a
container port to its chosen host port. -/
@[ext]
structure ServiceBlock where
  ports : Nat → Option Nat
  loggingFlag : Option Bool
  networkMode : Option String
  networks : List String

/-- Modelled from the spec: the static Option Descriptor declaring which
configuration dimensions are legal for a service. -/
structure OptionDescriptor where
  labeledPorts : List ((Nat × Nat) × String)
  volumes : Bool
  networks : Bool
  logging : Bool

/-- Modelled from the spec: the user's per-service build choices, read-only
input to compile. A requested port remap is a (host, container) pair. -/
structure BuildOptions where
  portRemaps : List (Nat × Nat)
  loggingState : Option Bool
  networkModeChoice : Option String
  networkSelection : Option (List String)

/-- True when a requested (host, container) remap is declared in the
descriptor's labeled-port set. -/
def portDeclared (desc : OptionDescriptor) (r : Nat × Nat) : Bool :=
  desc.labeledPorts.any (fun lp => lp.1 = r)

/-- Writing one accepted remap into the ports map, replacing any previous
mapping for that container port. -/
def applyRemap (p : Nat → Option Nat) (r : Nat × Nat) : Nat → Option Nat :=
  fun c => if c = r.2 then some r.1 else p c

/-- Modelled from the spec: the port merge — each requested remap that is
declared in the descriptor's label set is written into the service's block,
replacing any previous mapping for that container port; undeclared requests
are dropped silently. -/
def portsAfterMerge (desc : OptionDescriptor) (opts : BuildOptions)
    (p : Nat → Option Nat) : Nat → Option Nat :=
  (opts.portRemaps.filter (portDeclared desc)).foldl applyRemap p

/-- Modelled from the spec: the logging merge — a boolean setting, applied
only when the descriptor marks logging as supported. -/
def loggingAfterMerge (desc : OptionDescriptor) (opts : BuildOptions)
    (l : Option Bool) : Option Bool :=
  if desc.logging then
    match opts.loggingState with
    | some v => some v
    | none => l
  else l

/-- Modelled from the spec: the network-mode merge — sets the requested mode,
applied only when the descriptor marks networks as supported. -/
def networkModeAfterMerge (desc : OptionDescriptor) (opts : BuildOptions)
    (m : Option String) : Option String :=
  if desc.networks then
    match opts.networkModeChoice with
    | some v => some v
    | none => m
  else m

/-- Modelled from the spec: the networks merge — attaches the service to the
requested named networks, when the descriptor marks networks as supported. -/
def networksAfterMerge (desc : OptionDescriptor) (opts : BuildOptions)
    (ns : List String) : List String :=
  if desc.networks then
    match opts.networkSelection with
    | some sel => sel
    | none => ns
  else ns

/-- The port merge scoped to one service block. -/
def setModifiedPorts (desc : OptionDescriptor) (opts : BuildOptions)
    (b : ServiceBlock) : ServiceBlock :=
  { b with ports := portsAfterMerge desc opts b.ports }

/-- The logging merge scoped to one service block. -/
def setLoggingState (desc : OptionDescriptor) (opts : BuildOptions)
    (b : ServiceBlock) : ServiceBlock :=
  { b with loggingFlag := loggingAfterMerge desc opts b.loggingFlag }

/-- The network-mode merge scoped to one service block. -/
def setNetworkMode (desc : OptionDescriptor) (opts : BuildOptions)
    (b : ServiceBlock) : ServiceBlock :=
  { b with networkMode := networkModeAfterMerge desc opts b.networkMode }

/-- The networks merge scoped to one service block. -/
def setNetworks (desc : OptionDescriptor) (opts : BuildOptions)
    (b : ServiceBlock) : ServiceBlock :=
  { b with networks := networksAfterMerge desc opts b.networks }

/-- The four merges in the order compile() runs them. -/
def compileMergeBlock (desc : OptionDescriptor) (opts : BuildOptions)
    (b : ServiceBlock) : ServiceBlock :=
  setNetworks desc opts (setNetworkMode desc opts
    (setLoggingState desc opts (setModifiedPorts desc opts b)))

/-- The Working Document: service name to that service's block (a name with
no block yet reads as an all-empty block). -/
def WorkingDocument : Type := String → ServiceBlock

/-- The document effect of one compile() call: the four merges applied to
exactly this service's block, every other block untouched. -/
def compileDoc (desc : OptionDescriptor) (opts : BuildOptions)
    (name : String) (doc : WorkingDocument) : WorkingDocument :=
  fun n => if n = name then compileMergeBlock desc opts (doc n) else doc n

/-- Issue as the data model gives it: a structured finding from a conflict
checker. The checkers producing them (commonBuildChecks) are required from
../../../src/utils and are outside these sources, so their outcomes appear as
parameters of the phase functions. -/
structure Issue where
  component : String
  kind : String
  message : String
  affectedServices : List String
deriving DecidableEq

namespace ServiceBuilder

/-- The builder's fixed service name. -/
def serviceName : String := "mosquitto"

/-- The object every phase's catch block rejects with: component names the
phase and the service, message is the fixed text, and error is the JSON
round-trip snapshot of the thrown value. -/
def phaseReject (phase : String) (err : JsError) : List (String × JsVal) :=
  [("component", JsVal.str ("ServiceBuilder::" ++ phase ++ "() - '" ++ serviceName ++ "'")),
   ("message", JsVal.str "Unhandled error occured"),
   ("error", errorSnapshot err)]

/-- The value `{ type: 'service' }` that compile and build resolve with. -/
def resolvedServiceTag : List (String × JsVal) := [("type", JsVal.str "service")]

/-- The compileResults record compile() assembles from the four merge calls
(it is only logged). -/
structure MergeResults where
  modifiedPorts : JsVal
  modifiedLogging : JsVal
  modifiedNetworkMode : JsVal
  modifiedNetworks : JsVal

/-- retr.compile: runs the four commonCompileLogic merges inside try/catch;
resolves `{ type: 'service' }` when they return, rejects the phaseReject
object when one throws. The merge outcome (the four results, or the thrown
error) is the parameter, the merge code being outside these sources. -/
def compile (mergeOutcome : Except JsError MergeResults) :
    Except (List (String × JsVal)) (List (String × JsVal)) :=
  match mergeOutcome with
  | .error e => .error (phaseReject "compile" e)
  | .ok _ => .ok resolvedServiceTag

/-- The `if (networkConflicts) issues.push(networkConflicts)` step: the
network checker's result is pushed as one element only when truthy. -/
def networkContribution : Option Issue → List Issue
  | some i => [i]
  | none => []

/-- retr.issues: inside try/catch, concatenates the port-conflict list, the
dependency list, and the at-most-one network conflict, in that order, and
resolves the result; a checker throwing lands in the catch block, which
rejects the phaseReject object. The three checker outcomes are parameters,
in the order the code calls them. -/
def issues (portChecks depChecks : Except JsError (List Issue))
    (netCheck : Except JsError (Option Issue)) :
    Except (List (String × JsVal)) (List Issue) :=
  match portChecks with
  | .error e => .error (phaseReject "issues" e)
  | .ok pc =>
    match depChecks with
    | .error e => .error (phaseReject "issues" e)
    | .ok dc =>
      match netCheck with
      | .error e => .error (phaseReject "issues" e)
      | .ok nc => .ok (pc ++ dc ++ networkContribution nc)

/-- The checkServiceFilesCopied shell fragment. -/
def checkServiceFilesCopied : String :=
  "\nif [[ ! -f ./services/mosquitto/mosquitto.conf ]]; then\n  echo \"Mosquitto config file is missing!\"\n  sleep 2\nfi\n"

/-- The createVolumesDirectory shell fragment. -/
def createVolumesDirectory : String :=
  "\nmkdir -p ./volumes/mosquitto/data\nmkdir -p ./volumes/mosquitto/pwfile\nmkdir -p ./volumes/mosquitto/log\n"

/-- The checkVolumesDirectory shell fragment, byte for byte as the source has
it (including the unclosed quote in its final test). -/
def checkVolumesDirectory : String :=
  "\nHAS_ERROR=\"false\"\nif [[ ! -d ./volumes/mosquitto/data ]]; then\n  echo \"Mosquitto data directory is missing!\"\n  HAS_ERROR=\"true\"\nfi\n\nif [[ ! -d ./volumes/mosquitto/pwfile ]]; then\n  echo \"Mosquitto pwfile directory is missing!\"\n  HAS_ERROR=\"true\"\nfi\n\nif [[ ! -d ./volumes/mosquitto/log ]]; then\n  echo \"Mosquitto log directory is missing!\"\n  HAS_ERROR=\"true\"\nfi\n\nif [[ \"$HAS_ERROR\" == \"true ]]; then\n  echo \"Errors were detected when setting up Mosquitto\"\n  sleep 1\nfi\n"

/-- The setupVolumePermissions shell fragment, by its setUser1883 flag. -/
def setupVolumePermissions (setUser1883 : Bool) : String :=
  if setUser1883 then
    "\necho \"Updating mosquitto permissions:\"\necho \"  chown -R 1883:1883 ./volumes/mosquitto/\"\nsudo chown -R 1883:1883 ./volumes/mosquitto/\n    "
  else
    "\necho \"Mosquitto volume permissions not changed.\"\n    "

/-- A Zip Entry: local path to destination path inside the artifact. -/
structure ZipEntry where
  fullPath : String
  zipName : String
deriving DecidableEq

/-- A Build Script Fragment as build() pushes them. -/
structure BuildScriptFragment where
  serviceName : String
  comment : String
  multilineComment : Option String
  code : String
deriving DecidableEq

/-- The three mutable lists build() appends to. -/
structure BuildState where
  zipList : List ZipEntry
  prebuildScripts : List BuildScriptFragment
  postbuildScripts : List BuildScriptFragment
deriving DecidableEq

/-- The zip destination of the mosquitto config file. -/
def mosquittoZipName : String := "/services/mosquitto/mosquitto.conf"

/-- The list state after build()'s five pushes: the conf-file zip entry, one
pre-build fragment, and three post-build fragments in source push order
(file-existence check, directory-existence check, permission fix). -/
def builtState (confPath : String) (st : BuildState) : BuildState :=
  { zipList := st.zipList ++ [{ fullPath := confPath, zipName := mosquittoZipName }],
    prebuildScripts := st.prebuildScripts ++
      [{ serviceName := serviceName,
         comment := "Create required service directory exists for first launch",
         multilineComment := none,
         code := createVolumesDirectory }],
    postbuildScripts := st.postbuildScripts ++
      [{ serviceName := serviceName,
         comment := "Ensure required service files exist for launch",
         multilineComment := none,
         code := checkServiceFilesCopied },
       { serviceName := serviceName,
         comment := "Ensure required service directory exists for launch",
         multilineComment := none,
         code := checkVolumesDirectory },
       { serviceName := serviceName,
         comment := "Setup correct permissions for volume",
         multilineComment := none,
         code := setupVolumePermissions true }] }

/-- retr.build: inside try/catch, pushes the zip entry and the four script
fragments and resolves `{ type: 'service' }`, leaving outputTemplateJson
untouched; a throw (the conf-file path resolution is the fallible input,
passed as an Except) lands in the catch block, which rejects the phaseReject
object. -/
def build (confPath : Except JsError String) (outputTemplateJson : WorkingDocument)
    (st : BuildState) :
    Except (List (String × JsVal)) (WorkingDocument × BuildState × List (String × JsVal)) :=
  match confPath with
  | .error e => .error (phaseReject "build" e)
  | .ok p => .ok (outputTemplateJson, builtState p st, resolvedServiceTag)

end ServiceBuilder

namespace Prometheus

/-- prometheus getMeta(), field for field. -/
def getMeta : List (String × JsVal) :=
  [("serviceName", JsVal.str "prometheus"),
   ("displayName", JsVal.str "Prometheus (untested)"),
   ("serviceTypeTags", JsVal.arr [JsVal.str "wui", JsVal.str "database manager"])]

end Prometheus

namespace InfluxDb

/-- influxdb getMeta(), field for field. -/
def getMeta : List (String × JsVal) :=
  [("serviceName", JsVal.str "influxdb"),
   ("displayName", JsVal.str "InfluxDB"),
   ("serviceTypeTags", JsVal.arr [JsVal.str "database", JsVal.str "timeseries", JsVal.str "sql"]),
   ("iconUri", JsVal.str "/logos/influxdb.svg")]

end InfluxDb

namespace EspruinoHub

/-- espruinohub getMeta(), field for field. -/
def getMeta : List (String × JsVal) :=
  [("serviceName", JsVal.str "espruinohub"),
   ("displayName", JsVal.str "EspruinoHub (untested)"),
   ("serviceTypeTags", JsVal.arr [JsVal.str "mqtt", JsVal.str "ble", JsVal.str "rpi only"])]

end EspruinoHub

/-- A concrete thrown value: message and stack own properties, a prototype
property, as a typical Error. -/
def sampleError : JsError :=
  { ownProps := [("message", JsVal.str "boom"), ("stack", JsVal.str "trace")],
    protoProps := [("name", JsVal.str "Error")] }

/-- A concrete merge-results record for exercising compile's resolve path. -/
def sampleMergeResults : ServiceBuilder.MergeResults :=
  { modifiedPorts := JsVal.bool true,
    modifiedLogging := JsVal.bool false,
    modifiedNetworkMode := JsVal.bool false,
    modifiedNetworks := JsVal.bool false }

/-- The host-to-container map a list of remaps folds down to: the last remap
for a container port wins. -/
def lastHost : List (Nat × Nat) → Nat → Option Nat
  | [], _ => none
  | r :: rs, c =>
      match lastHost rs c with
      | some h => some h
      | none => if c = r.2 then some r.1 else none

theorem foldl_applyRemap_eq (rs : List (Nat × Nat)) (p : Nat → Option Nat) :
    rs.foldl applyRemap p = fun c =>
      match lastHost rs c with
      | some h => some h
      | none => p c := by
  induction rs generalizing p with
  | nil => funext c; simp [lastHost]
  | cons r rs ih =>
      funext c
      rw [List.foldl_cons, ih]
      simp only [lastHost]
      cases lastHost rs c with
      | some h => rfl
      | none =>
          simp only [applyRemap]
          by_cases hc : c = r.2 <;> simp [hc]

theorem portsAfterMerge_idem (desc : OptionDescriptor) (opts : BuildOptions)
    (p : Nat → Option Nat) :
    portsAfterMerge desc opts (portsAfterMerge desc opts p) = portsAfterMerge desc opts p := by
  unfold portsAfterMerge
  rw [foldl_applyRemap_eq, foldl_applyRemap_eq]
  funext c
  cases h : lastHost (opts.portRemaps.filter (portDeclared desc)) c <;> simp [h]

theorem loggingAfterMerge_idem (desc : OptionDescriptor) (opts : BuildOptions)
    (l : Option Bool) :
    loggingAfterMerge desc opts (loggingAfterMerge desc opts l) = loggingAfterMerge desc opts l := by
  unfold loggingAfterMerge
  cases hd : desc.logging <;> cases ho : opts.loggingState <;> simp

theorem networkModeAfterMerge_idem (desc : OptionDescriptor) (opts : BuildOptions)
    (m : Option String) :
    networkModeAfterMerge desc opts (networkModeAfterMerge desc opts m)
      = networkModeAfterMerge desc opts m := by
  unfold networkModeAfterMerge
  cases hd : desc.networks <;> cases ho : opts.networkModeChoice <;> simp

theorem networksAfterMerge_idem (desc : OptionDescriptor) (opts : BuildOptions)
    (ns : List String) :
    networksAfterMerge desc opts (networksAfterMerge desc opts ns)
      = networksAfterMerge desc opts ns := by
  unfold networksAfterMerge
  cases hd : desc.networks <;> cases ho : opts.networkSelection <;> simp

theorem compileMergeBlock_fields (desc : OptionDescriptor) (opts : BuildOptions)
    (b : ServiceBlock) :
    compileMergeBlock desc opts b =
      { ports := portsAfterMerge desc opts b.ports,
        loggingFlag := loggingAfterMerge desc opts b.loggingFlag,
        networkMode := networkModeAfterMerge desc opts b.networkMode,
        networks := networksAfterMerge desc opts b.networks } := rfl

theorem compileMergeBlock_idem (desc : OptionDescriptor) (opts : BuildOptions)
    (b : ServiceBlock) :
    compileMergeBlock desc opts (compileMergeBlock desc opts b) = compileMergeBlock desc opts b := by
  simp only [compileMergeBlock_fields]
  refine ServiceBlock.ext ?_ ?_ ?_ ?_ <;> dsimp only
  · exact portsAfterMerge_idem desc opts b.ports
  · exact loggingAfterMerge_idem desc opts b.loggingFlag
  · exact networkModeAfterMerge_idem desc opts b.networkMode
  · exact networksAfterMerge_idem desc opts b.networks

theorem noBadArr_serializeArr_of (keys : List String) (xs : List JsVal)
    (ih : ∀ x ∈ xs, ∀ w, serializeVal keys x = some w → noBadVal w = true) :
    noBadArr (serializeArr keys xs) = true := by
  induction xs with
  | nil => simp [serializeArr, noBadArr]
  | cons x xs ihx =>
      rw [serializeArr, noBadArr]
      cases hx : serializeVal keys x with
      | none =>
          simp only [Option.getD, noBadVal, Bool.true_and]
          exact ihx (fun y hy w hw => ih y (List.mem_cons_of_mem _ hy) w hw)
      | some w =>
          simp only [Option.getD]
          rw [ih x (List.mem_cons_self _ _) w hx]
          simp only [Bool.true_and]
          exact ihx (fun y hy w' hw' => ih y (List.mem_cons_of_mem _ hy) w' hw')

theorem noBadProps_serializeProps_of (keys : List String) (props : List (String × JsVal))
    (ih : ∀ p ∈ props, ∀ w, serializeVal keys p.2 = some w → noBadVal w = true) :
    noBadProps (serializeProps keys props) = true := by
  induction props with
  | nil => simp [serializeProps, noBadProps]
  | cons p ps ihp =>
      obtain ⟨k, v⟩ := p
      rw [serializeProps]
      by_cases hk : k ∈ keys
      · simp only [if_pos hk]
        cases hv : serializeVal keys v with
        | none => exact ihp (fun q hq w hw => ih q (List.mem_cons_of_mem _ hq) w hw)
        | some w =>
            rw [noBadProps]
            have h1 : noBadVal w = true := ih (k, v) (List.mem_cons_self _ _) w hv
            rw [h1]
            simp only [Bool.true_and]
            exact ihp (fun q hq w' hw' => ih q (List.mem_cons_of_mem _ hq) w' hw')
      · simp only [if_neg hk]
        exact ihp (fun q hq w hw => ih q (List.mem_cons_of_mem _ hq) w hw)

theorem serialize_noBad_aux (n : Nat) :
    ∀ (keys : List String) (v : JsVal), sizeOf v ≤ n →
      ∀ w, serializeVal keys v = some w → noBadVal w = true := by
  induction n with
  | zero =>
      intro keys v hv
      exfalso
      cases v <;> simp at hv
  | succ n ih =>
      intro keys v hv w hw
      cases v with
      | str s => rw [serializeVal] at hw; cases hw; rfl
      | num m => rw [serializeVal] at hw; cases hw; rfl
      | bool b => rw [serializeVal] at hw; cases hw; rfl
      | null => rw [serializeVal] at hw; cases hw; rfl
      | undef => rw [serializeVal] at hw; cases hw
      | fn => rw [serializeVal] at hw; cases hw
      | arr xs =>
          rw [serializeVal] at hw
          cases hw
          rw [noBadVal]
          apply noBadArr_serializeArr_of
          intro x hx w' hw'
          have hs : sizeOf x < sizeOf xs := List.sizeOf_lt_of_mem hx
          have hxs : sizeOf (JsVal.arr xs) = 1 + sizeOf xs := by simp
          exact ih keys x (by omega) w' hw'
      | obj props =>
          rw [serializeVal] at hw
          cases hw
          rw [noBadVal]
          apply noBadProps_serializeProps_of
          intro p hp w' hw'
          have hs : sizeOf p < sizeOf props := List.sizeOf_lt_of_mem hp
          have hp2 : sizeOf p.2 < sizeOf p := by
            obtain ⟨k, v⟩ := p
            simp
          have hxs : sizeOf (JsVal.obj props) = 1 + sizeOf props := by simp
          exact ih keys p.2 (by omega) w' hw'

theorem noBadVal_errorSnapshot (e : JsError) : noBadVal (errorSnapshot e) = true := by
  rw [errorSnapshot, noBadVal]
  apply noBadProps_serializeProps_of
  intro p hp w hw
  exact serialize_noBad_aux (sizeOf p.2) (ownPropertyNames e) p.2 le_rfl w hw

/-- C1 (counterexample): at a concrete thrown error, the compile phase's
rejected value has exactly the fields component, message, error — in
particular it has no cause field and no inputSnapshot field, refuting the
claimed six-field shape. -/
theorem c1_reject_fields_counterexample :
    ServiceBuilder.compile (Except.error sampleError)
      = Except.error (ServiceBuilder.phaseReject "compile" sampleError)
    ∧ (ServiceBuilder.phaseReject "compile" sampleError).map Prod.fst
        = ["component", "message", "error"]
    ∧ "cause" ∉ (ServiceBuilder.phaseReject "compile" sampleError).map Prod.fst
    ∧ "inputSnapshot" ∉ (ServiceBuilder.phaseReject "compile" sampleError).map Prod.fst := by
  refine ⟨rfl, rfl, ?_, ?_⟩ <;> decide

/-- C1 (amended): every failing phase call (compile, issues, build) rejects
with a structured object whose fields are exactly component, message, and
error; the phase name and the service name are embedded in the component
string, and the serialized cause is carried in the error field. -/
theorem c1_reject_fields (e : JsError) (doc : WorkingDocument)
    (st : ServiceBuilder.BuildState) (dc : Except JsError (List Issue))
    (nc : Except JsError (Option Issue)) :
    ServiceBuilder.compile (Except.error e)
      = Except.error (ServiceBuilder.phaseReject "compile" e)
    ∧ ServiceBuilder.issues (Except.error e) dc nc
        = Except.error (ServiceBuilder.phaseReject "issues" e)
    ∧ ServiceBuilder.build (Except.error e) doc st
        = Except.error (ServiceBuilder.phaseReject "build" e)
    ∧ ∀ phase, (ServiceBuilder.phaseReject phase e).map Prod.fst
        = ["component", "message", "error"] :=
  ⟨rfl, rfl, rfl, fun _ => rfl⟩

/-- C2 (counterexample): a concrete successful compile call resolves with
`{ type: 'service' }`, whose single field is named type, not kind — the
resolved value is not the claimed `{ kind: 'service' }`. -/
theorem c2_resolved_tag_counterexample :
    ServiceBuilder.compile (Except.ok sampleMergeResults)
      = Except.ok [("type", JsVal.str "service")]
    ∧ "kind" ∉ ServiceBuilder.resolvedServiceTag.map Prod.fst := ⟨rfl, by decide⟩

/-- C2 (amended): every successful call to compile and to build resolves with
the tagged result `{ type: 'service' }`. -/
theorem c2_resolved_tag (mr : ServiceBuilder.MergeResults) (p : String)
    (doc : WorkingDocument) (st : ServiceBuilder.BuildState) :
    ServiceBuilder.compile (Except.ok mr) = Except.ok ServiceBuilder.resolvedServiceTag
    ∧ ServiceBuilder.build (Except.ok p) doc st
        = Except.ok (doc, ServiceBuilder.builtState p st, ServiceBuilder.resolvedServiceTag)
    ∧ ServiceBuilder.resolvedServiceTag.map Prod.fst = ["type"] := ⟨rfl, rfl, rfl⟩

/-- C3: when the three checkers return (detecting any number of conflicts),
issues() resolves with the conflicts as an ordered list and never rejects;
it rejects (with the structured phase error) exactly when a checker itself
throws, whichever of the three it is. -/
theorem c3_issues_conflicts_are_data (pc dc : List Issue) (nc : Option Issue)
    (e : JsError) (d : Except JsError (List Issue)) (x : Except JsError (Option Issue)) :
    ServiceBuilder.issues (Except.ok pc) (Except.ok dc) (Except.ok nc)
      = Except.ok (pc ++ dc ++ ServiceBuilder.networkContribution nc)
    ∧ ServiceBuilder.issues (Except.error e) d x
        = Except.error (ServiceBuilder.phaseReject "issues" e)
    ∧ ServiceBuilder.issues (Except.ok pc) (Except.error e) x
        = Except.error (ServiceBuilder.phaseReject "issues" e)
    ∧ ServiceBuilder.issues (Except.ok pc) (Except.ok dc) (Except.error e)
        = Except.error (ServiceBuilder.phaseReject "issues" e) := ⟨rfl, rfl, rfl, rfl⟩

/-- C4: in every issues() result, the network-conflict check contributes at
most one Issue (pushed only when the checker's value is truthy), while every
finding the port-conflict check enumerates is included. -/
theorem c4_network_single_port_all (pc dc : List Issue) (nc : Option Issue) :
    ServiceBuilder.issues (Except.ok pc) (Except.ok dc) (Except.ok nc)
      = Except.ok (pc ++ dc ++ ServiceBuilder.networkContribution nc)
    ∧ (ServiceBuilder.networkContribution nc).length ≤ 1
    ∧ ∀ i ∈ pc, i ∈ pc ++ dc ++ ServiceBuilder.networkContribution nc := by
  refine ⟨rfl, ?_, ?_⟩
  · cases nc <;> simp [ServiceBuilder.networkContribution]
  · intro i hi
    exact List.mem_append_left _ (List.mem_append_left _ hi)

/-- C5: a single successful mosquitto build() starting from empty lists
appends exactly one zip entry (zipName /services/mosquitto/mosquitto.conf),
exactly one pre-build fragment (creating the three volume directories), and
exactly three post-build fragments in the order file-existence check,
directory-existence check, permission fix. -/
theorem c5_mosquitto_build_artifacts (p : String) (doc : WorkingDocument) :
    ServiceBuilder.build (Except.ok p) doc ⟨[], [], []⟩
      = Except.ok (doc,
          { zipList := [{ fullPath := p, zipName := "/services/mosquitto/mosquitto.conf" }],
            prebuildScripts :=
              [{ serviceName := "mosquitto",
                 comment := "Create required service directory exists for first launch",
                 multilineComment := none,
                 code := ServiceBuilder.createVolumesDirectory }],
            postbuildScripts :=
              [{ serviceName := "mosquitto",
                 comment := "Ensure required service files exist for launch",
                 multilineComment := none,
                 code := ServiceBuilder.checkServiceFilesCopied },
               { serviceName := "mosquitto",
                 comment := "Ensure required service directory exists for launch",
                 multilineComment := none,
                 code := ServiceBuilder.checkVolumesDirectory },
               { serviceName := "mosquitto",
                 comment := "Setup correct permissions for volume",
                 multilineComment := none,
                 code := ServiceBuilder.setupVolumePermissions true }] },
          ServiceBuilder.resolvedServiceTag) := rfl

/-- C6: compile is idempotent — applying the document effect of compile twice
with identical buildOptions and descriptor yields a Working Document
field-for-field identical to applying it once. -/
theorem c6_compile_idempotent (desc : OptionDescriptor) (opts : BuildOptions)
    (name : String) (doc : WorkingDocument) :
    compileDoc desc opts name (compileDoc desc opts name doc)
      = compileDoc desc opts name doc := by
  funext n
  by_cases h : n = name
  · simp [compileDoc, h, compileMergeBlock_idem]
  · simp [compileDoc, h]

/-- C7: every successful build() leaves the Working Document unchanged and
only appends to zipList, prebuildScripts and postbuildScripts. -/
theorem c7_build_preserves_document (p : String) (doc : WorkingDocument)
    (st : ServiceBuilder.BuildState) :
    ServiceBuilder.build (Except.ok p) doc st
      = Except.ok (doc, ServiceBuilder.builtState p st, ServiceBuilder.resolvedServiceTag)
    ∧ (ServiceBuilder.builtState p st).zipList
        = st.zipList ++ [{ fullPath := p, zipName := ServiceBuilder.mosquittoZipName }]
    ∧ (ServiceBuilder.builtState p st).prebuildScripts
        = st.prebuildScripts ++
            [{ serviceName := "mosquitto",
               comment := "Create required service directory exists for first launch",
               multilineComment := none,
               code := ServiceBuilder.createVolumesDirectory }]
    ∧ (ServiceBuilder.builtState p st).postbuildScripts
        = st.postbuildScripts ++
            [{ serviceName := "mosquitto",
               comment := "Ensure required service files exist for launch",
               multilineComment := none,
               code := ServiceBuilder.checkServiceFilesCopied },
             { serviceName := "mosquitto",
               comment := "Ensure required service directory exists for launch",
               multilineComment := none,
               code := ServiceBuilder.checkVolumesDirectory },
             { serviceName := "mosquitto",
               comment := "Setup correct permissions for volume",
               multilineComment := none,
               code := ServiceBuilder.setupVolumePermissions true }] :=
  ⟨rfl, rfl, rfl, rfl⟩

/-- C8 (counterexample): prometheus getMeta() returns serviceName,
displayName and serviceTypeTags — it has no tags field and no icon field,
refuting the claimed { displayName, tags, icon } shape; influxdb's icon
field is likewise named iconUri, not icon. -/
theorem c8_getMeta_fields_counterexample :
    Prometheus.getMeta.map Prod.fst = ["serviceName", "displayName", "serviceTypeTags"]
    ∧ "tags" ∉ Prometheus.getMeta.map Prod.fst
    ∧ "icon" ∉ Prometheus.getMeta.map Prod.fst
    ∧ "icon" ∉ InfluxDb.getMeta.map Prod.fst := by
  refine ⟨rfl, ?_, ?_, ?_⟩ <;> decide

/-- C8 (amended): every catalog service's getMeta() returns a record with
serviceName, displayName and serviceTypeTags fields; influxdb additionally
carries iconUri. -/
theorem c8_getMeta_fields :
    Prometheus.getMeta.map Prod.fst = ["serviceName", "displayName", "serviceTypeTags"]
    ∧ InfluxDb.getMeta.map Prod.fst
        = ["serviceName", "displayName", "serviceTypeTags", "iconUri"]
    ∧ EspruinoHub.getMeta.map Prod.fst
        = ["serviceName", "displayName", "serviceTypeTags"] := ⟨rfl, rfl, rfl⟩

/-- C9: every list a successful issues() call resolves with is ordered by
checker category — all port-conflict Issues first, then all dependency
Issues, then the at-most-one network-conflict Issue last. -/
theorem c9_issues_order (pc dc : List Issue) (nc : Option Issue) :
    ServiceBuilder.issues (Except.ok pc) (Except.ok dc) (Except.ok nc)
      = Except.ok (pc ++ dc ++ ServiceBuilder.networkContribution nc) := rfl

/-- C10: every phase's rejected object carries in its error field the deep
JSON round-trip of the thrown value restricted to its own property names: a
plain snapshot that is unaffected by prototype-level properties and contains
no non-serializable (undefined or function) value anywhere. -/
theorem c10_error_snapshot (e : JsError) (doc : WorkingDocument)
    (st : ServiceBuilder.BuildState) (dc : Except JsError (List Issue))
    (nc : Except JsError (Option Issue)) :
    (ServiceBuilder.compile (Except.error e)
        = Except.error (ServiceBuilder.phaseReject "compile" e)
      ∧ ServiceBuilder.issues (Except.error e) dc nc
          = Except.error (ServiceBuilder.phaseReject "issues" e)
      ∧ ServiceBuilder.build (Except.error e) doc st
          = Except.error (ServiceBuilder.phaseReject "build" e))
    ∧ (∀ phase, (ServiceBuilder.phaseReject phase e).lookup "error"
        = some (errorSnapshot e))
    ∧ (∀ own proto1 proto2,
        errorSnapshot { ownProps := own, protoProps := proto1 }
          = errorSnapshot { ownProps := own, protoProps := proto2 })
    ∧ noBadVal (errorSnapshot e) = true := by
  refine ⟨⟨rfl, rfl, rfl⟩, ?_, fun own proto1 proto2 => rfl, noBadVal_errorSnapshot e⟩
  intro phase
  simp [ServiceBuilder.phaseReject, List.lookup]
